import Mathlib

/-!
Verification of the AutoTab content-script suggestion lifecycle
(`src/public/content-script.js`, first variant, together with the background
worker `src/public/background.js`).

The JavaScript is shallowly embedded: strings are `List Char` (`Str`),
the per-element mutable record kept by `InputStateManager` is `InputState`,
and the observable per-element world (field value, rendered ghost overlay,
pending debounce timers) is `World`.  Event handlers become pure functions
`World → ... → World`.  `setTimeout` / `clearTimeout` are modelled by an
explicit list of live timers plus the id stored in the
`InputStateManager.debounceTimers` map; the asynchronous fetch completion is
modelled by `requestSuggestion` applied to an explicit fetch outcome.
-/

/-- JavaScript strings, embedded as lists of characters. -/
abbrev Str := List Char

/-- `MIN_TEXT_LENGTH` from content-script.js: minimum text length to trigger
suggestions. -/
def MIN_TEXT_LENGTH : Nat := 10

/-- `DEBOUNCE_DELAY` from content-script.js: delay in ms before requesting AI
suggestions. -/
def DEBOUNCE_DELAY : Nat := 1500

/-- Characters removed by JavaScript `String.prototype.trim` (the common
ASCII subset: space, tab, newline, carriage return, vertical tab, form
feed). -/
def isJsWhitespace (c : Char) : Bool :=
  c == ' ' || c == '\t' || c == '\n' || c == '\r' ||
    c == Char.ofNat 11 || c == Char.ofNat 12

/-- JavaScript `text.trim()`: strip leading and trailing whitespace. -/
def jsTrim (s : Str) : Str :=
  ((s.dropWhile isJsWhitespace).reverse.dropWhile isJsWhitespace).reverse

/-- `AutoTab.isValidInput` (content-script.js, first variant, lines 325-327):
`return text.length >= MIN_TEXT_LENGTH;` — a pure length check. -/
def isValidInput (text : Str) : Bool :=
  decide (MIN_TEXT_LENGTH ≤ text.length)

/-- The per-element record created by `InputStateManager.getState`. -/
structure InputState where
  userText : Str
  suggestion : Str
  originalText : Str
  cachedResponse : Option Str
deriving DecidableEq, Repr

/-- A timer created by `setTimeout` in `handleInput`: its handle, the absolute
time at which it fires, and the `userText` captured by its callback
(`requestSuggestion(element, userText)`). -/
structure Timer where
  id : Nat
  fireAt : Nat
  text : Str
deriving DecidableEq, Repr

/-- The observable world of one tracked element: the DOM value, the
`InputStateManager` record, the ghost overlay (the suggestion text currently
rendered, `none` when no overlay exists), the set of live (scheduled, not yet
fired or cancelled) timers, the timer id stored in the
`InputStateManager.debounceTimers` map, a fresh-id counter for `setTimeout`,
and the current time. -/
structure World where
  value : Str
  state : InputState
  overlay : Option Str
  liveTimers : List Timer
  storedTimerId : Option Nat
  nextTimerId : Nat
  now : Nat
deriving DecidableEq, Repr

/-- `InputStateManager.clearDebounceTimer` (lines 166-168):
`clearTimeout(this.debounceTimers.get(element))` — cancels the timer whose id
is stored in the map, if any (`clearTimeout(undefined)` is a no-op).  The map
entry itself is not deleted. -/
def clearDebounceTimer (w : World) : World :=
  { w with liveTimers :=
      match w.storedTimerId with
      | some i => w.liveTimers.filter (fun tm => decide (tm.id ≠ i))
      | none => w.liveTimers }

/-- `setTimeout(() => requestSuggestion(element, userText), DEBOUNCE_DELAY)`
followed by `InputStateManager.setDebounceTimer(element, timer)`
(lines 162-164, 290-292): creates a live timer with a fresh handle and stores
that handle in the map. -/
def setDebounceTimer (w : World) (userText : Str) : World :=
  { w with
    liveTimers := w.liveTimers ++ [⟨w.nextTimerId, w.now + DEBOUNCE_DELAY, userText⟩],
    storedTimerId := some w.nextTimerId,
    nextTimerId := w.nextTimerId + 1 }

/-- `AutoTab.handleInput` (content-script.js, first variant, lines 233-293).
`eventData` is `event.data` (`none` embeds JavaScript `null`/`undefined`, as
produced by deletions and other non-insert edits); `w.value` is the element's
value *after* the edit, as the browser delivers it to the `input` listener.
The overlay field records the ghost text rendered by
`ghostOverlayManager.createOrUpdate` / cleared by `ghostOverlayManager.remove`.
In Case 2 (a lone space while a suggestion is active) the source only rewrites
the invisible content span and repositions the overlay; the ghost text and all
state are unchanged, so the world is returned as is. -/
def handleInput (w : World) (eventData : Option Str) : World :=
  match eventData with
  | none => w
  | some newInput =>
    let userText := jsTrim w.value
    let w1 : World := { w with state := { w.state with userText := userText } }
    if isValidInput userText = false then
      { w1 with overlay := none, state := { w1.state with suggestion := [] } }
    else
      let w2 := clearDebounceTimer w1
      if w2.state.suggestion ≠ [] ∧ newInput ≠ [] ∧
          newInput.isPrefixOf w2.state.suggestion = true then
        let remainingSuggestion := w2.state.suggestion.drop newInput.length
        { w2 with state := { w2.state with suggestion := remainingSuggestion },
                  overlay := some remainingSuggestion }
      else if w2.state.suggestion ≠ [] ∧ newInput = [' '] then
        w2
      else
        let w3 : World :=
          if w2.state.suggestion ≠ [] ∧ newInput ≠ [] then
            { w2 with overlay := none, state := { w2.state with suggestion := [] } }
          else w2
        setDebounceTimer w3 userText

/-- `AutoTab.acceptSuggestion` (lines 365-374): snapshot the element value into
`state.originalText`, append the suggestion to the value, clear the suggestion,
remove the overlay.  (The synthetic `input` event it dispatches carries no
`data`, so its re-entry into `handleInput` returns immediately and has no
effect.) -/
def acceptSuggestion (w : World) : World :=
  if w.state.suggestion = [] then w
  else
    let originalText := w.value
    { w with
      value := originalText ++ w.state.suggestion,
      state := { w.state with originalText := originalText, suggestion := [] },
      overlay := none }

/-- `AutoTab.undoSuggestion` (lines 376-385): if a pre-accept snapshot exists,
restore it as the element value, clear the snapshot and the suggestion, remove
the overlay; otherwise do nothing. -/
def undoSuggestion (w : World) : World :=
  if w.state.originalText = [] then w
  else
    { w with
      value := w.state.originalText,
      state := { w.state with originalText := [], suggestion := [] },
      overlay := none }

/-- A keyboard event as consumed by `AutoTab.handleKeydown`. -/
structure KeyEvent where
  key : String
  ctrlKey : Bool
  metaKey : Bool
deriving DecidableEq, Repr

/-- Result of a keydown: the new world and whether `event.preventDefault()`
was called. -/
structure KeydownResult where
  world : World
  preventedDefault : Bool
deriving DecidableEq, Repr

/-- `AutoTab.handleKeydown` (lines 298-308): Tab accepts when a suggestion is
active; `ctrlKey` together with the key `z`/`Z` triggers undo.  The source
tests `event.ctrlKey` only — `metaKey` is never consulted. -/
def handleKeydown (w : World) (event : KeyEvent) : KeydownResult :=
  if event.key = "Tab" ∧ w.state.suggestion ≠ [] then
    { world := acceptSuggestion w, preventedDefault := true }
  else if event.ctrlKey = true ∧ (event.key = "z" ∨ event.key = "Z") then
    { world := undoSuggestion w, preventedDefault := true }
  else
    { world := w, preventedDefault := false }

/-- The settled value of the `chrome.runtime.sendMessage` promise as seen by
`AutoTab.getAISuggestion`: either a response object whose `suggestion` field
is present (`some`) or absent (`none`), or a rejection (network/runtime
error). -/
inductive SendMessageResult where
  | response (suggestionField : Option Str)
  | failure
deriving DecidableEq, Repr

/-- `AutoTab.getAISuggestion` (lines 423-441): return `response.suggestion`
when it is truthy; otherwise throw, and the surrounding catch returns the
empty string.  A rejected `sendMessage` is caught the same way. -/
def getAISuggestion (r : SendMessageResult) : Str :=
  match r with
  | .response suggestionField =>
    match suggestionField with
    | some s => if s = [] then [] else s
    | none => []
  | .failure => []

/-- Result of `AutoTab.requestSuggestion`: the new world and whether the
message round-trip to the background worker was actually performed. -/
structure RequestResult where
  world : World
  networkCalled : Bool
deriving DecidableEq, Repr

/-- `AutoTab.requestSuggestion` (lines 332-363), applied to the outcome of the
message round-trip.  Empty captured text clears everything; a cache hit
(`state.cachedResponse === userText`) re-renders the cached suggestion without
any network call; otherwise the fetched suggestion is stored and rendered when
truthy, and everything is cleared when it is empty (which is also what every
caught error produces, via `getAISuggestion`). -/
def requestSuggestion (w : World) (userText : Str) (outcome : SendMessageResult) :
    RequestResult :=
  if userText = [] then
    { world := { w with overlay := none, state := { w.state with suggestion := [] } },
      networkCalled := false }
  else if w.state.cachedResponse = some userText then
    { world := { w with overlay := some w.state.suggestion },
      networkCalled := false }
  else
    let suggestion := getAISuggestion outcome
    if suggestion ≠ [] then
      { world := { w with
          state := { w.state with
                      suggestion := suggestion,
                      cachedResponse := some userText },
          overlay := some suggestion },
        networkCalled := true }
    else
      { world := { w with overlay := none, state := { w.state with suggestion := [] } },
        networkCalled := true }

/-! ## Background worker (`src/public/background.js`, first variant) -/

/-- What the `fetch` to the Gemini endpoint produced, as seen inside
`getGeminiResponse`: a thrown error (network failure, or the `HTTP error!`
raised on a non-ok status) carrying its string rendering, or a parsed payload
whose first-candidate text is present or missing. -/
inductive GeminiOutcome where
  | thrown (errText : Str)
  | payload (candidateText : Option Str)
deriving DecidableEq, Repr

/-- `cleanCompletion` (background.js lines 78-85): empty completions stay
empty; otherwise all newlines are removed and the result is trimmed. -/
def cleanCompletion (completion : Str) : Str :=
  if completion = [] then []
  else jsTrim (completion.filter (fun c => decide (c ≠ '\n')))

/-- The literal produced by the catch in `getGeminiResponse` (background.js
lines 72-75): `"Error fetching response " + error`. -/
def errorResponseText : Str := ("Error fetching response ").toList

/-- The default used when the payload has no candidate text (background.js
lines 63-65): `"No response from Gemini"`. -/
def noResponseText : Str := ("No response from Gemini").toList

/-- `getGeminiResponse` (background.js, first variant, lines 29-76): on any
thrown error the catch returns the non-empty string
`"Error fetching response " + error`; on success the candidate text (or the
`"No response from Gemini"` default when it is missing or empty) is cleaned
and returned. -/
def getGeminiResponse (outcome : GeminiOutcome) : Str :=
  match outcome with
  | .thrown errText => errorResponseText ++ errText
  | .payload candidateText =>
    let completion :=
      match candidateText with
      | some t => if t = [] then noResponseText else t
      | none => noResponseText
    cleanCompletion completion

/-- The background listener (background.js lines 90-109): the resolved value
of `getGeminiResponse` — whatever it is, error text included — is sent back as
`{suggestion: aiCompletion}`. -/
def backgroundResponse (outcome : GeminiOutcome) : SendMessageResult :=
  .response (some (getGeminiResponse outcome))

/-! ## Ghost overlay manager (element ↦ overlay association) -/

/-- `GhostOverlayManager`: the `overlays` WeakMap, embedded as an association
list from element identities to the overlay's rendered ghost text. -/
structure GhostOverlayManager where
  overlays : List (Nat × Str)
deriving DecidableEq, Repr

/-- `GhostOverlayManager.remove` (content-script.js lines 128-134): look the
element up; if an overlay exists, detach it and delete the association;
otherwise do nothing. -/
def GhostOverlayManager.remove (m : GhostOverlayManager) (element : Nat) :
    GhostOverlayManager :=
  match m.overlays.lookup element with
  | some _ => ⟨m.overlays.filter (fun p => decide (p.1 ≠ element))⟩
  | none => m

/-- The association-creating half of `GhostOverlayManager.createOrUpdate`
(lines 30-43): reuse the existing overlay, creating one only on first call. -/
def GhostOverlayManager.createOrUpdate (m : GhostOverlayManager) (element : Nat)
    (suggestion : Str) : GhostOverlayManager :=
  match m.overlays.lookup element with
  | some _ => ⟨m.overlays.map (fun p => if p.1 = element then (p.1, suggestion) else p)⟩
  | none => ⟨(element, suggestion) :: m.overlays⟩

/-! ## Keystroke timeline (for the debounce claims) -/

/-- One `input` event on the timeline: when it is delivered, the element value
the browser reports, and `event.data`. -/
structure BurstEvent where
  time : Nat
  value : Str
  data : Option Str
deriving DecidableEq, Repr

/-- Advance to time `t`: timers that have come due fire (their callbacks run
`requestSuggestion`, modelled separately); the rest stay live. -/
def fireDue (w : World) (t : Nat) : World × List Timer :=
  ({ w with liveTimers := w.liveTimers.filter (fun tm => decide (t < tm.fireAt)) },
   w.liveTimers.filter (fun tm => decide (tm.fireAt ≤ t)))

/-- Deliver a sequence of `input` events in time order: before each event the
clock advances and due timers fire (collected in the second component), then
`handleInput` runs for the event. -/
def runBurst : World → List BurstEvent → World × List Timer
  | w, [] => (w, [])
  | w, e :: rest =>
    let fd := fireDue { w with now := e.time } e.time
    let w2 := handleInput { fd.1 with value := e.value } e.data
    let res := runBurst w2 rest
    (res.1, fd.2 ++ res.2)

/-- Every event is delivered strictly less than `DEBOUNCE_DELAY` after the
previous one (for the first event, after `tprev`). -/
def withinQuiet : Nat → List BurstEvent → Bool
  | _, [] => true
  | tprev, e :: rest =>
    decide (e.time < tprev + DEBOUNCE_DELAY) && withinQuiet e.time rest

/-- Every event is an insertion (`event.data` present) whose resulting trimmed
text passes the validation gate. -/
def validEvent (e : BurstEvent) : Bool :=
  e.data.isSome && isValidInput (jsTrim e.value)

/-- All events of a burst qualify for the debounce scheduling logic. -/
def allValid (events : List BurstEvent) : Bool :=
  events.all validEvent

/-- Delivery time of the last event of the burst (`tprev` for an empty
burst). -/
def lastTime : Nat → List BurstEvent → Nat
  | tprev, [] => tprev
  | _, e :: rest => lastTime e.time rest

/-- A convenient initial world for concrete runs: the given element value,
suggestion, undo snapshot and cache key, no timers, clock at zero. -/
def mkWorld (value suggestion originalText : Str) (cachedResponse : Option Str) :
    World :=
  { value := value
    state := { userText := jsTrim value, suggestion := suggestion,
               originalText := originalText, cachedResponse := cachedResponse }
    overlay := if suggestion = [] then none else some suggestion
    liveTimers := []
    storedTimerId := none
    nextTimerId := 0
    now := 0 }

/-! ## Helper lemmas -/

/-- `clearDebounceTimer` touches only the timer list. -/
@[simp] theorem clearDebounceTimer_state (w : World) :
    (clearDebounceTimer w).state = w.state := rfl

@[simp] theorem clearDebounceTimer_value (w : World) :
    (clearDebounceTimer w).value = w.value := rfl

@[simp] theorem clearDebounceTimer_overlay (w : World) :
    (clearDebounceTimer w).overlay = w.overlay := rfl

@[simp] theorem clearDebounceTimer_storedTimerId (w : World) :
    (clearDebounceTimer w).storedTimerId = w.storedTimerId := rfl

@[simp] theorem clearDebounceTimer_nextTimerId (w : World) :
    (clearDebounceTimer w).nextTimerId = w.nextTimerId := rfl

@[simp] theorem clearDebounceTimer_now (w : World) :
    (clearDebounceTimer w).now = w.now := rfl

/-- Cancelling only ever shrinks the live-timer list. -/
theorem clearDebounceTimer_liveTimers_subset (w : World) :
    ∀ tm ∈ (clearDebounceTimer w).liveTimers, tm ∈ w.liveTimers := by
  intro tm h
  unfold clearDebounceTimer at h
  cases hs : w.storedTimerId with
  | some i => rw [hs] at h; exact List.mem_of_mem_filter h
  | none => rw [hs] at h; exact h

/-- When the stored handle covers every live timer (the reachable situation),
cancelling empties the live-timer list. -/
theorem clearDebounceTimer_liveTimers_nil (w : World)
    (hst : ∀ tm ∈ w.liveTimers, w.storedTimerId = some tm.id) :
    (clearDebounceTimer w).liveTimers = [] := by
  unfold clearDebounceTimer
  cases hs : w.storedTimerId with
  | none =>
    cases hl : w.liveTimers with
    | nil => simp [hl]
    | cons a l =>
      have := hst a (by rw [hl]; exact List.mem_cons_self a l)
      rw [hs] at this
      cases this
  | some i =>
    simp only
    rw [List.filter_eq_nil_iff]
    intro tm hm
    have := hst tm hm
    rw [hs] at this
    have hid : tm.id = i := by injection this with h2; omega
    simp [hid]

/-- A list is a prefix of itself followed by anything (`startsWith`). -/
theorem isPrefixOf_append_left (p r : Str) : p.isPrefixOf (p ++ r) = true := by
  induction p with
  | nil => simp
  | cons a l ih => simp [List.isPrefixOf_cons₂, ih]

/-- Looking a key up after filtering that key out always misses. -/
theorem lookup_filter_ne (l : List (Nat × Str)) (e : Nat) :
    (l.filter (fun p => decide (p.1 ≠ e))).lookup e = none := by
  induction l with
  | nil => rfl
  | cons a l ih =>
    rw [List.filter_cons]
    by_cases h : a.1 = e
    · rw [if_neg (by simp [h])]
      exact ih
    · rw [if_pos (by simp [h])]
      obtain ⟨k, v⟩ := a
      rw [List.lookup_cons]
      have hbe : (e == k) = false := by
        simp only [beq_eq_false_iff_ne]
        exact fun hh => h (by simp [hh.symm])
      rw [hbe]
      exact ih

/-! ## Claim theorems -/

/-- C10: for an input event whose `event.data` is `null`/`undefined` (as
produced by deletions, cuts, and other non-insert edits), `handleInput`
returns before any effect: suggestion, cache key, pre-accept snapshot, timers
and overlay are untouched and no fetch is scheduled. -/
theorem handleInput_null_data (w : World) : handleInput w none = w := rfl

/-- C9: `GhostOverlayManager.remove` is idempotent and leaves the
element-to-overlay association empty for that element; it is a total
function, so calling it when no overlay exists (or twice in a row) cannot
throw. -/
theorem ghostOverlay_remove_idem (m : GhostOverlayManager) (element : Nat) :
    (m.remove element).overlays.lookup element = none ∧
    (m.remove element).remove element = m.remove element := by
  have h1 : ∀ m' : GhostOverlayManager,
      (m'.remove element).overlays.lookup element = none := by
    intro m'
    unfold GhostOverlayManager.remove
    cases h : m'.overlays.lookup element with
    | none => simpa using h
    | some s => exact lookup_filter_ne _ _
  refine ⟨h1 m, ?_⟩
  have h2 := h1 m
  generalize m.remove element = m2 at h2 ⊢
  unfold GhostOverlayManager.remove
  rw [h2]

/-- C6 (confirmed): when `requestSuggestion` runs for text equal to the stored
cache key `cachedResponse`, no network call is made and the cached suggestion
is re-rendered immediately, everything else unchanged. -/
theorem requestSuggestion_cache_hit (w : World) (userText : Str)
    (outcome : SendMessageResult)
    (hne : userText ≠ [])
    (hcache : w.state.cachedResponse = some userText) :
    (requestSuggestion w userText outcome).networkCalled = false ∧
    (requestSuggestion w userText outcome).world =
      { w with overlay := some w.state.suggestion } := by
  unfold requestSuggestion
  rw [if_neg hne, if_pos hcache]
  exact ⟨rfl, rfl⟩

/-- Witness for C6 at a concrete cache hit. -/
theorem requestSuggestion_cache_hit_witness :
    (("hello worlds").toList ≠ ([] : Str)) ∧
    ((mkWorld ("hello worlds").toList ("abc").toList [] (some ("hello worlds").toList)).state.cachedResponse
        = some ("hello worlds").toList) ∧
    ((requestSuggestion (mkWorld ("hello worlds").toList ("abc").toList [] (some ("hello worlds").toList))
        ("hello worlds").toList SendMessageResult.failure).networkCalled = false ∧
      (requestSuggestion (mkWorld ("hello worlds").toList ("abc").toList [] (some ("hello worlds").toList))
        ("hello worlds").toList SendMessageResult.failure).world =
      { mkWorld ("hello worlds").toList ("abc").toList [] (some ("hello worlds").toList) with
          overlay := some (mkWorld ("hello worlds").toList ("abc").toList [] (some ("hello worlds").toList)).state.suggestion }) :=
  ⟨by decide, by decide,
   requestSuggestion_cache_hit _ _ SendMessageResult.failure (by decide) (by decide)⟩

/-- C8 counterexample: a network/HTTP error thrown inside the background
worker's `getGeminiResponse` resolves to the non-empty string
`"Error fetching response " + error`; the content script treats it as a valid
suggestion, stores it, and renders it as ghost text — contradicting the claim
that every failed fetch is treated like an empty suggestion. -/
theorem error_text_rendered_cex :
    (requestSuggestion (mkWorld ("hello worlds").toList [] [] none)
        (jsTrim ("hello worlds").toList)
        (backgroundResponse (GeminiOutcome.thrown
          ("Error: HTTP error! Status: 500").toList))).world.overlay
      = some (errorResponseText ++ ("Error: HTTP error! Status: 500").toList) ∧
    (requestSuggestion (mkWorld ("hello worlds").toList [] [] none)
        (jsTrim ("hello worlds").toList)
        (backgroundResponse (GeminiOutcome.thrown
          ("Error: HTTP error! Status: 500").toList))).world.state.suggestion
      ≠ [] := by decide

/-- C8 (amended): at the content-script level every outcome that
`getAISuggestion` maps to the empty string — a rejected `sendMessage`, a
response without a `suggestion` field, or an empty suggestion — is handled
identically to an empty suggestion: the active suggestion is cleared and the
overlay removed. -/
theorem requestSuggestion_failure_like_empty (w : World) (userText : Str)
    (outcome : SendMessageResult)
    (hne : userText ≠ [])
    (hcache : w.state.cachedResponse ≠ some userText)
    (hfail : getAISuggestion outcome = []) :
    requestSuggestion w userText outcome =
      requestSuggestion w userText (SendMessageResult.response (some [])) ∧
    (requestSuggestion w userText outcome).world.state.suggestion = [] ∧
    (requestSuggestion w userText outcome).world.overlay = none := by
  have hempty : getAISuggestion (SendMessageResult.response (some [])) = [] := rfl
  unfold requestSuggestion
  simp only [if_neg hne, if_neg hcache, hfail, hempty]
  rw [if_neg (by simp)]
  exact ⟨trivial, rfl, rfl⟩

/-- Witness for C8's amended theorem at a rejected `sendMessage`. -/
theorem requestSuggestion_failure_like_empty_witness :
    (("hello worlds").toList ≠ ([] : Str)) ∧
    ((mkWorld ("hello worlds").toList ("old").toList [] none).state.cachedResponse
      ≠ some ("hello worlds").toList) ∧
    (getAISuggestion SendMessageResult.failure = []) ∧
    (requestSuggestion (mkWorld ("hello worlds").toList ("old").toList [] none)
        ("hello worlds").toList SendMessageResult.failure =
      requestSuggestion (mkWorld ("hello worlds").toList ("old").toList [] none)
        ("hello worlds").toList (SendMessageResult.response (some [])) ∧
    (requestSuggestion (mkWorld ("hello worlds").toList ("old").toList [] none)
        ("hello worlds").toList SendMessageResult.failure).world.state.suggestion = [] ∧
    (requestSuggestion (mkWorld ("hello worlds").toList ("old").toList [] none)
        ("hello worlds").toList SendMessageResult.failure).world.overlay = none) :=
  ⟨by decide, by decide, by decide,
   requestSuggestion_failure_like_empty _ _ _ (by decide) (by decide) (by decide)⟩

/-- C4 counterexample: the trimmed text `"1234567890"` consists solely of
digits, yet `handleInput` schedules a debounce timer (and hence a fetch) for
it — the first variant's `isValidInput` checks only the length. -/
theorem digits_schedule_fetch_cex :
    (⟨0, DEBOUNCE_DELAY, ("1234567890").toList⟩ : Timer) ∈
      (handleInput (mkWorld ("1234567890").toList [] [] none)
        (some ['0'])).liveTimers := by decide

/-- C4 (amended): when the trimmed text fails the validation gate — which in
this variant means only that it is shorter than `MIN_TEXT_LENGTH` characters —
`handleInput` clears the active suggestion and removes the overlay and
schedules no fetch from that event, but it does **not** cancel a pending
debounce timer (the cancellation sits after the validity check); digit-only or
symbol-only text of sufficient length passes the gate. -/
theorem handleInput_invalid (w : World) (p : Str)
    (hv : isValidInput (jsTrim w.value) = false) :
    (handleInput w (some p)).state.suggestion = [] ∧
    (handleInput w (some p)).overlay = none ∧
    (handleInput w (some p)).liveTimers = w.liveTimers ∧
    (handleInput w (some p)).storedTimerId = w.storedTimerId ∧
    (handleInput w (some p)).nextTimerId = w.nextTimerId ∧
    (handleInput w (some p)).value = w.value ∧
    (handleInput w (some p)).state.originalText = w.state.originalText ∧
    (handleInput w (some p)).state.cachedResponse = w.state.cachedResponse := by
  unfold handleInput
  simp [hv]

/-- Witness for C4's amended theorem on a short text. -/
theorem handleInput_invalid_witness :
    (isValidInput (jsTrim ("short").toList) = false) ∧
    ((handleInput (mkWorld ("short").toList ("abc").toList [] none)
        (some ['t'])).state.suggestion = [] ∧
    (handleInput (mkWorld ("short").toList ("abc").toList [] none)
        (some ['t'])).overlay = none ∧
    (handleInput (mkWorld ("short").toList ("abc").toList [] none)
        (some ['t'])).liveTimers =
      (mkWorld ("short").toList ("abc").toList [] none).liveTimers ∧
    (handleInput (mkWorld ("short").toList ("abc").toList [] none)
        (some ['t'])).storedTimerId =
      (mkWorld ("short").toList ("abc").toList [] none).storedTimerId ∧
    (handleInput (mkWorld ("short").toList ("abc").toList [] none)
        (some ['t'])).nextTimerId =
      (mkWorld ("short").toList ("abc").toList [] none).nextTimerId ∧
    (handleInput (mkWorld ("short").toList ("abc").toList [] none)
        (some ['t'])).value =
      (mkWorld ("short").toList ("abc").toList [] none).value ∧
    (handleInput (mkWorld ("short").toList ("abc").toList [] none)
        (some ['t'])).state.originalText =
      (mkWorld ("short").toList ("abc").toList [] none).state.originalText ∧
    (handleInput (mkWorld ("short").toList ("abc").toList [] none)
        (some ['t'])).state.cachedResponse =
      (mkWorld ("short").toList ("abc").toList [] none).state.cachedResponse) :=
  ⟨by decide, handleInput_invalid _ _ (by decide)⟩

/-- C3 counterexample: Cmd+Z (metaKey without ctrlKey) with a non-empty
pre-accept snapshot does **not** restore it — `handleKeydown` tests
`event.ctrlKey` only, so the event falls through both branches and the world
is returned unchanged, its value still differing from the snapshot. -/
theorem cmdZ_no_undo_cex :
    (handleKeydown (mkWorld ("helloworldxx").toList [] ("hello").toList none)
        { key := "z", ctrlKey := false, metaKey := true }).world
      = mkWorld ("helloworldxx").toList [] ("hello").toList none ∧
    (mkWorld ("helloworldxx").toList [] ("hello").toList none).state.originalText
      ≠ [] ∧
    (handleKeydown (mkWorld ("helloworldxx").toList [] ("hello").toList none)
        { key := "z", ctrlKey := false, metaKey := true }).world.value
      ≠ ("hello").toList := by decide

/-- C3 (amended): undo is bound to the ctrl modifier only.  For a keydown with
`ctrlKey` set and key `z`/`Z` (with or without meta), default is prevented; if
the pre-accept snapshot is non-empty the field value is restored to exactly
the snapshot while the snapshot, the suggestion and the overlay are cleared;
if the snapshot is empty the world is unchanged.  Cmd+Z without Ctrl does
nothing (see the counterexample). -/
theorem handleKeydown_ctrlZ (w : World) (key : String) (metaK : Bool)
    (hk : key = "z" ∨ key = "Z") :
    (handleKeydown w { key := key, ctrlKey := true, metaKey := metaK }).preventedDefault
      = true ∧
    (w.state.originalText ≠ [] →
      (handleKeydown w { key := key, ctrlKey := true, metaKey := metaK }).world =
        { w with value := w.state.originalText,
                 state := { w.state with originalText := [], suggestion := [] },
                 overlay := none }) ∧
    (w.state.originalText = [] →
      (handleKeydown w { key := key, ctrlKey := true, metaKey := metaK }).world = w) := by
  have hne : key ≠ "Tab" := by
    rcases hk with h | h <;> subst h <;> decide
  unfold handleKeydown
  rw [if_neg (fun hc => hne hc.1), if_pos ⟨rfl, hk⟩]
  unfold undoSuggestion
  refine ⟨rfl, ?_, ?_⟩
  · intro h
    rw [if_neg h]
  · intro h
    rw [if_pos h]

/-- Witness for C3's amended theorem: Ctrl+Z with a pending snapshot. -/
theorem handleKeydown_ctrlZ_witness :
    (("z" : String) = "z" ∨ ("z" : String) = "Z") ∧
    ((handleKeydown (mkWorld ("helloworldxx").toList [] ("hello").toList none)
        { key := "z", ctrlKey := true, metaKey := false }).preventedDefault = true ∧
    ((mkWorld ("helloworldxx").toList [] ("hello").toList none).state.originalText ≠ [] →
      (handleKeydown (mkWorld ("helloworldxx").toList [] ("hello").toList none)
          { key := "z", ctrlKey := true, metaKey := false }).world =
        { mkWorld ("helloworldxx").toList [] ("hello").toList none with
            value := (mkWorld ("helloworldxx").toList [] ("hello").toList none).state.originalText,
            state := { (mkWorld ("helloworldxx").toList [] ("hello").toList none).state with
                        originalText := [], suggestion := [] },
            overlay := none }) ∧
    ((mkWorld ("helloworldxx").toList [] ("hello").toList none).state.originalText = [] →
      (handleKeydown (mkWorld ("helloworldxx").toList [] ("hello").toList none)
          { key := "z", ctrlKey := true, metaKey := false }).world =
        mkWorld ("helloworldxx").toList [] ("hello").toList none)) :=
  ⟨Or.inl rfl, handleKeydown_ctrlZ _ "z" false (Or.inl rfl)⟩

/-- C2 counterexample: with field value `V = ""` and suggestion `"abc"`,
pressing Tab and then Ctrl+Z leaves the field at `"abc"` — the empty
pre-accept value is **not** recoverable, because `undoSuggestion` treats an
empty snapshot as "nothing to undo". -/
theorem accept_undo_empty_value_cex :
    ((handleKeydown
        ((handleKeydown (mkWorld [] ("abc").toList [] none)
            { key := "Tab", ctrlKey := false, metaKey := false }).world)
        { key := "z", ctrlKey := true, metaKey := false }).world).value
      = ("abc").toList ∧
    (mkWorld [] ("abc").toList [] none).value = [] ∧
    ("abc").toList ≠ ([] : Str) := by decide

/-- C2 (amended): pressing Tab with a non-empty active suggestion `S` on field
value `V` prevents the default, snapshots `V` into `originalText`, sets the
value to `V ++ S`, clears the suggestion and removes the overlay; `V` is then
recoverable via Ctrl+Z provided `V` is non-empty (an empty `V` makes the
snapshot empty, which undo treats as "nothing to undo"). -/
theorem handleKeydown_accept (w : World) (ctrlK metaK : Bool)
    (hS : w.state.suggestion ≠ []) :
    (handleKeydown w { key := "Tab", ctrlKey := ctrlK, metaKey := metaK }).preventedDefault
      = true ∧
    (handleKeydown w { key := "Tab", ctrlKey := ctrlK, metaKey := metaK }).world.value
      = w.value ++ w.state.suggestion ∧
    (handleKeydown w { key := "Tab", ctrlKey := ctrlK, metaKey := metaK }).world.state.originalText
      = w.value ∧
    (handleKeydown w { key := "Tab", ctrlKey := ctrlK, metaKey := metaK }).world.state.suggestion
      = [] ∧
    (handleKeydown w { key := "Tab", ctrlKey := ctrlK, metaKey := metaK }).world.overlay
      = none ∧
    (w.value ≠ [] →
      (handleKeydown
        (handleKeydown w { key := "Tab", ctrlKey := ctrlK, metaKey := metaK }).world
        { key := "z", ctrlKey := true, metaKey := false }).world.value = w.value) := by
  unfold handleKeydown
  rw [if_pos ⟨rfl, hS⟩]
  unfold acceptSuggestion
  rw [if_neg hS]
  refine ⟨rfl, rfl, rfl, rfl, rfl, ?_⟩
  intro hV
  rw [if_neg (fun hc => absurd hc.1 (by decide)),
      if_pos ⟨rfl, Or.inl rfl⟩]
  unfold undoSuggestion
  rw [if_neg hV]

/-- Witness for C2's amended theorem: accept then undo on a non-empty value. -/
theorem handleKeydown_accept_witness :
    ((mkWorld ("hello").toList ("abc").toList [] none).state.suggestion ≠ []) ∧
    ((handleKeydown (mkWorld ("hello").toList ("abc").toList [] none)
        { key := "Tab", ctrlKey := false, metaKey := false }).preventedDefault = true ∧
    (handleKeydown (mkWorld ("hello").toList ("abc").toList [] none)
        { key := "Tab", ctrlKey := false, metaKey := false }).world.value
      = (mkWorld ("hello").toList ("abc").toList [] none).value ++
          (mkWorld ("hello").toList ("abc").toList [] none).state.suggestion ∧
    (handleKeydown (mkWorld ("hello").toList ("abc").toList [] none)
        { key := "Tab", ctrlKey := false, metaKey := false }).world.state.originalText
      = (mkWorld ("hello").toList ("abc").toList [] none).value ∧
    (handleKeydown (mkWorld ("hello").toList ("abc").toList [] none)
        { key := "Tab", ctrlKey := false, metaKey := false }).world.state.suggestion = [] ∧
    (handleKeydown (mkWorld ("hello").toList ("abc").toList [] none)
        { key := "Tab", ctrlKey := false, metaKey := false }).world.overlay = none ∧
    ((mkWorld ("hello").toList ("abc").toList [] none).value ≠ [] →
      (handleKeydown
        (handleKeydown (mkWorld ("hello").toList ("abc").toList [] none)
          { key := "Tab", ctrlKey := false, metaKey := false }).world
        { key := "z", ctrlKey := true, metaKey := false }).world.value
      = (mkWorld ("hello").toList ("abc").toList [] none).value)) :=
  ⟨by decide, handleKeydown_accept _ false false (by decide)⟩

/-- C1 (confirmed, behind the validation gate that the spec places before
reconciliation): with a non-empty active suggestion `p ++ r` and an input
event inserting the non-empty text `p` (a prefix of the suggestion — single-
or multi-character alike), `handleInput` sets the active suggestion to the
remainder `r`, re-renders the overlay with `r`, and schedules no fetch (no
timer is created; the live-timer list only shrinks). -/
theorem handleInput_reconcile (w : World) (p r : Str)
    (hvalid : isValidInput (jsTrim w.value) = true)
    (hp : p ≠ [])
    (hS : w.state.suggestion = p ++ r) :
    (handleInput w (some p)).state.suggestion = r ∧
    (handleInput w (some p)).overlay = some r ∧
    (handleInput w (some p)).nextTimerId = w.nextTimerId ∧
    ∀ tm ∈ (handleInput w (some p)).liveTimers, tm ∈ w.liveTimers := by
  have hSne : w.state.suggestion ≠ [] := by simp [hS, hp]
  have hpre : p.isPrefixOf w.state.suggestion = true := by
    rw [hS]; exact isPrefixOf_append_left p r
  have hdrop : w.state.suggestion.drop p.length = r := by
    rw [hS]; exact List.drop_left p r
  unfold handleInput
  simp [hvalid, hSne, hp, hpre, hdrop]
  exact fun tm h => clearDebounceTimer_liveTimers_subset _ tm h

/-- Witness for C1: typing the two characters `"ab"` through the suggestion
`"abc"` leaves the suggestion `"c"`. -/
theorem handleInput_reconcile_witness :
    (isValidInput (jsTrim ("hello worldsab").toList) = true) ∧
    (['a','b'] ≠ ([] : Str)) ∧
    ((mkWorld ("hello worldsab").toList ("abc").toList [] none).state.suggestion
      = ['a','b'] ++ ['c']) ∧
    ((handleInput (mkWorld ("hello worldsab").toList ("abc").toList [] none)
        (some ['a','b'])).state.suggestion = ['c'] ∧
    (handleInput (mkWorld ("hello worldsab").toList ("abc").toList [] none)
        (some ['a','b'])).overlay = some ['c'] ∧
    (handleInput (mkWorld ("hello worldsab").toList ("abc").toList [] none)
        (some ['a','b'])).nextTimerId =
      (mkWorld ("hello worldsab").toList ("abc").toList [] none).nextTimerId ∧
    ∀ tm ∈ (handleInput (mkWorld ("hello worldsab").toList ("abc").toList [] none)
        (some ['a','b'])).liveTimers,
      tm ∈ (mkWorld ("hello worldsab").toList ("abc").toList [] none).liveTimers) :=
  ⟨by decide, by decide, by decide,
   handleInput_reconcile _ ['a','b'] ['c'] (by decide) (by decide) (by decide)⟩

/-- C7 counterexample: deleting text produces an input event with
`event.data = null`, and `handleInput` then returns before any effect — the
active suggestion is **not** cleared and no new debounce cycle starts,
contradicting the "(or deletes text)" part of the claim. -/
theorem deletion_keeps_suggestion_cex :
    handleInput (mkWorld ("hello worlds").toList ("abc").toList [] none) none
      = mkWorld ("hello worlds").toList ("abc").toList [] none ∧
    (handleInput (mkWorld ("hello worlds").toList ("abc").toList [] none)
        none).state.suggestion ≠ [] ∧
    (handleInput (mkWorld ("hello worlds").toList ("abc").toList [] none)
        none).liveTimers = [] := by decide

/-- C7 (amended): with a non-empty active suggestion, typing non-empty text
`p` that is not a prefix of the suggestion and is not the single space
(valid text assumed, per the validation gate) clears the suggestion, removes
the overlay, and starts a new debounce cycle: a fresh timer for the current
trimmed text, `DEBOUNCE_DELAY` from now, is scheduled and stored.  A lone
mismatched space only repositions the overlay, and deletions (null event
data) change nothing — see the counterexample. -/
theorem handleInput_mismatch (w : World) (p : Str)
    (hvalid : isValidInput (jsTrim w.value) = true)
    (hS : w.state.suggestion ≠ [])
    (hp : p ≠ [])
    (hsp : p ≠ [' '])
    (hpre : p.isPrefixOf w.state.suggestion = false) :
    (handleInput w (some p)).state.suggestion = [] ∧
    (handleInput w (some p)).overlay = none ∧
    (handleInput w (some p)).storedTimerId = some w.nextTimerId ∧
    (⟨w.nextTimerId, w.now + DEBOUNCE_DELAY, jsTrim w.value⟩ : Timer) ∈
      (handleInput w (some p)).liveTimers := by
  unfold handleInput
  simp [hvalid, hS, hp, hsp, hpre, setDebounceTimer]

/-- Witness for C7's amended theorem: typing `"x"` against the suggestion
`"abc"` discards it and schedules a fetch. -/
theorem handleInput_mismatch_witness :
    (isValidInput (jsTrim ("hello worldsx").toList) = true) ∧
    ((mkWorld ("hello worldsx").toList ("abc").toList [] none).state.suggestion ≠ []) ∧
    (['x'] ≠ ([] : Str)) ∧
    (['x'] ≠ ([' '] : Str)) ∧
    (List.isPrefixOf ['x']
      (mkWorld ("hello worldsx").toList ("abc").toList [] none).state.suggestion = false) ∧
    ((handleInput (mkWorld ("hello worldsx").toList ("abc").toList [] none)
        (some ['x'])).state.suggestion = [] ∧
    (handleInput (mkWorld ("hello worldsx").toList ("abc").toList [] none)
        (some ['x'])).overlay = none ∧
    (handleInput (mkWorld ("hello worldsx").toList ("abc").toList [] none)
        (some ['x'])).storedTimerId =
      some (mkWorld ("hello worldsx").toList ("abc").toList [] none).nextTimerId ∧
    (⟨(mkWorld ("hello worldsx").toList ("abc").toList [] none).nextTimerId,
      (mkWorld ("hello worldsx").toList ("abc").toList [] none).now + DEBOUNCE_DELAY,
      jsTrim (mkWorld ("hello worldsx").toList ("abc").toList [] none).value⟩ : Timer) ∈
      (handleInput (mkWorld ("hello worldsx").toList ("abc").toList [] none)
        (some ['x'])).liveTimers) :=
  ⟨by decide, by decide, by decide, by decide, by decide,
   handleInput_mismatch _ ['x'] (by decide) (by decide) (by decide) (by decide) (by decide)⟩

/-- On the valid-input path every keystroke cancels the stored timer before
anything else: provided the stored handle covers the live timers, after
`handleInput` the live-timer list is either empty (reconciliation / lone
space) or exactly the one fresh timer just scheduled, whose handle is now the
stored one. -/
theorem handleInput_valid_timers (w : World) (p : Str)
    (hst : ∀ tm ∈ w.liveTimers, w.storedTimerId = some tm.id)
    (hv : isValidInput (jsTrim w.value) = true) :
    ((handleInput w (some p)).liveTimers = [] ∧
      (handleInput w (some p)).storedTimerId = w.storedTimerId) ∨
    ((handleInput w (some p)).liveTimers =
        [⟨w.nextTimerId, w.now + DEBOUNCE_DELAY, jsTrim w.value⟩] ∧
      (handleInput w (some p)).storedTimerId = some w.nextTimerId) := by
  have hnil : (clearDebounceTimer
      { w with state := { w.state with userText := jsTrim w.value } }).liveTimers = [] :=
    clearDebounceTimer_liveTimers_nil _ hst
  unfold handleInput
  simp only [hv, Bool.true_eq_false, if_false]
  split
  · exact Or.inl ⟨hnil, rfl⟩
  · split
    · exact Or.inl ⟨hnil, rfl⟩
    · refine Or.inr ?_
      split
      · exact ⟨by simp [setDebounceTimer, hnil], rfl⟩
      · exact ⟨by simp [setDebounceTimer, hnil], rfl⟩

/-- C5 (confirmed): starting from a world whose at most one live timer is
covered by the stored handle and due `DEBOUNCE_DELAY` after `tprev`, a burst
of qualifying keystrokes (each an insertion with valid text, each arriving
within the 1500 ms quiet window of its predecessor) fires **no** timer during
the burst — so at most one fetch can result — and leaves at most one live
timer, scheduled exactly `DEBOUNCE_DELAY` after the last keystroke: the fetch
can only fire after the quiet period elapses with no further keystrokes.
Each keystroke that reaches the scheduling step first cancels the stored
timer before setting a new one (`handleInput_valid_timers`). -/
theorem debounce_burst (events : List BurstEvent) (w : World) (tprev : Nat)
    (hw : ∀ tm ∈ w.liveTimers,
      w.storedTimerId = some tm.id ∧ tm.fireAt = tprev + DEBOUNCE_DELAY)
    (hlen : w.liveTimers.length ≤ 1)
    (hq : withinQuiet tprev events = true)
    (hv : allValid events = true) :
    (runBurst w events).2 = [] ∧
    (runBurst w events).1.liveTimers.length ≤ 1 ∧
    ∀ tm ∈ (runBurst w events).1.liveTimers,
      (runBurst w events).1.storedTimerId = some tm.id ∧
      tm.fireAt = lastTime tprev events + DEBOUNCE_DELAY := by
  induction events generalizing w tprev with
  | nil =>
    exact ⟨rfl, hlen, fun tm h => hw tm h⟩
  | cons e rest ih =>
    simp only [withinQuiet, Bool.and_eq_true, decide_eq_true_eq] at hq
    obtain ⟨hq1, hq2⟩ := hq
    simp only [allValid, List.all_cons, Bool.and_eq_true] at hv
    obtain ⟨hve, hvrest⟩ := hv
    simp only [validEvent, Bool.and_eq_true, Option.isSome_iff_exists] at hve
    obtain ⟨⟨p, hp⟩, hval⟩ := hve
    have hdue : (fireDue { w with now := e.time } e.time).2 = [] := by
      simp only [fireDue]
      rw [List.filter_eq_nil_iff]
      intro tm hm
      have h2 := (hw tm hm).2
      simp only [decide_eq_true_eq]
      simp only [DEBOUNCE_DELAY] at h2 hq1 ⊢
      omega
    have hstA : ∀ tm ∈ ({ (fireDue { w with now := e.time } e.time).1 with
        value := e.value } : World).liveTimers,
        ({ (fireDue { w with now := e.time } e.time).1 with
          value := e.value } : World).storedTimerId = some tm.id := by
      intro tm hm
      have hm' : tm ∈ w.liveTimers := List.mem_of_mem_filter hm
      exact (hw tm hm').1
    have hcase := handleInput_valid_timers
      ({ (fireDue { w with now := e.time } e.time).1 with value := e.value }) p hstA hval
    have hw2 : ∀ tm ∈ (handleInput ({ (fireDue { w with now := e.time } e.time).1 with
        value := e.value }) (some p)).liveTimers,
        (handleInput ({ (fireDue { w with now := e.time } e.time).1 with
          value := e.value }) (some p)).storedTimerId = some tm.id ∧
        tm.fireAt = e.time + DEBOUNCE_DELAY := by
      rcases hcase with ⟨hnil, _⟩ | ⟨hone, hsid⟩
      · intro tm hm
        rw [hnil] at hm
        cases hm
      · intro tm hm
        rw [hone] at hm
        have := List.mem_singleton.mp hm
        subst this
        exact ⟨by rw [hsid], rfl⟩
    have hlen2 : (handleInput ({ (fireDue { w with now := e.time } e.time).1 with
        value := e.value }) (some p)).liveTimers.length ≤ 1 := by
      rcases hcase with ⟨hnil, _⟩ | ⟨hone, _⟩
      · simp [hnil]
      · simp [hone]
    have IH := ih (handleInput ({ (fireDue { w with now := e.time } e.time).1 with
        value := e.value }) (some p)) e.time hw2 hlen2 hq2 hvrest
    simp only [runBurst]
    rw [hp]
    refine ⟨?_, IH.2.1, ?_⟩
    · rw [hdue, IH.1]
      rfl
    · exact IH.2.2

/-- Witness for C5: two keystrokes 1000 ms apart, from an idle field; no
timer fires during the burst and one timer remains, due 1500 ms after the
second keystroke. -/
theorem debounce_burst_witness :
    (∀ tm ∈ (mkWorld [] [] [] none).liveTimers,
      (mkWorld [] [] [] none).storedTimerId = some tm.id ∧
      tm.fireAt = 0 + DEBOUNCE_DELAY) ∧
    ((mkWorld [] [] [] none).liveTimers.length ≤ 1) ∧
    (withinQuiet 0 [⟨0, ("hello worlds").toList, some ['s']⟩,
      ⟨1000, ("hello worldsa").toList, some ['a']⟩] = true) ∧
    (allValid [⟨0, ("hello worlds").toList, some ['s']⟩,
      ⟨1000, ("hello worldsa").toList, some ['a']⟩] = true) ∧
    ((runBurst (mkWorld [] [] [] none)
        [⟨0, ("hello worlds").toList, some ['s']⟩,
         ⟨1000, ("hello worldsa").toList, some ['a']⟩]).2 = [] ∧
    (runBurst (mkWorld [] [] [] none)
        [⟨0, ("hello worlds").toList, some ['s']⟩,
         ⟨1000, ("hello worldsa").toList, some ['a']⟩]).1.liveTimers.length ≤ 1 ∧
    ∀ tm ∈ (runBurst (mkWorld [] [] [] none)
        [⟨0, ("hello worlds").toList, some ['s']⟩,
         ⟨1000, ("hello worldsa").toList, some ['a']⟩]).1.liveTimers,
      (runBurst (mkWorld [] [] [] none)
        [⟨0, ("hello worlds").toList, some ['s']⟩,
         ⟨1000, ("hello worldsa").toList, some ['a']⟩]).1.storedTimerId = some tm.id ∧
      tm.fireAt = lastTime 0 [⟨0, ("hello worlds").toList, some ['s']⟩,
        ⟨1000, ("hello worldsa").toList, some ['a']⟩] + DEBOUNCE_DELAY) :=
  ⟨by decide, by decide, by decide, by decide,
   debounce_burst _ _ 0 (by decide) (by decide) (by decide) (by decide)⟩
